import Mathlib

/-!
Shallow embedding of the two source files of this repository:

* `code/frameworks/nextjs/src/routing/app-router-provider.tsx` — the fake
  Next.js app-router provider: `getParallelRoutes` rebuilds a
  `FlightRouterState` tree from a flat segment list, and `getSelectedParams`
  walks such a tree extracting dynamic-route parameters.
* `code/lib/core-server/src/presets/common-preset.ts` — the preset
  (configuration-merging) functions of the dev server, plus the server-channel
  handlers for "what's new" data and telemetry relaying.

JavaScript `undefined` is modelled by `Option.none`; JS string truthiness is
an explicit `≠ ""` test; effectful steps (file system, network fetch, cache,
config reading) are modelled by outcome parameters describing what each step
returns or whether it throws, and the handlers become pure functions from
those outcomes to the data they emit and the external actions they perform.
-/

/-- Value of `PAGE_SEGMENT_KEY` from `next/dist/shared/lib/segment`. -/
def PAGE_SEGMENT_KEY : String := "__PAGE__"

/-- Segment of a `FlightRouterState`: either a plain string, or a dynamic
parameter triple `[param, value, type]` (the code tests `Array.isArray`). -/
inductive Segment where
  | static (s : String)
  | dynamic (name value ty : String)
deriving DecidableEq, Repr

/-- FlightRouterState `[segment, parallelRoutes, ...]`: a segment and a map
from parallel-route slot names to child states. The bare `[]` that
`getParallelRoutes` returns at the end of the list is `node none []` — both
`tree[0]` and `tree[1]` read back `undefined` on it. -/
inductive FlightRouterState where
  | node (seg : Option Segment) (parallelRoutes : List (String × FlightRouterState))

/-- Projection `tree[0]`. -/
def FlightRouterState.segOf : FlightRouterState → Option Segment
  | .node s _ => s

/-- Projection `tree[1]`. -/
def FlightRouterState.routesOf : FlightRouterState → List (String × FlightRouterState)
  | .node _ ps => ps

/-- Embedding of `getParallelRoutes` (app-router-provider.tsx lines 48-56) as
a pure function: `shift()` takes the head of the list, and a falsy result
(list exhausted, or the shifted segment is the empty string) stops the
recursion with the bare `[]` state. -/
def getParallelRoutes : List String → FlightRouterState
  | [] => .node none []
  | s :: rest =>
    if s = "" then .node none []
    else .node (some (.static s)) [("children", getParallelRoutes rest)]

/-- Embedding of `getParallelRoutes` with the mutation of its argument array
made explicit: the second component is the final contents of the array that
`shift()` has been consuming (note that the falsy segment that stops the
recursion has itself already been shifted off). -/
def getParallelRoutesShift : List String → FlightRouterState × List String
  | [] => (.node none [], [])
  | s :: rest =>
    if s = "" then (.node none [], rest)
    else
      let res := getParallelRoutesShift rest
      (.node (some (.static s)) [("children", res.1)], res.2)

/-- Fields of `RouteParams` that `AppRouterProvider` destructures; `segments`
is optional and defaults to `[]`. -/
structure RouteParams where
  pathname : String
  query : List (String × String)
  segments : Option (List String)
deriving DecidableEq, Repr

/-- Tree construction of `AppRouterProvider` (lines 63-65): the state
`[pathname, { children: getParallelRoutes([...segments]) }]`. The spread
`[...segments]` hands `getParallelRoutes` a fresh copy, so only the copy is
consumed; the provider's own `routeParams` (second component) are returned
unchanged. -/
def appRouterProviderTree (rp : RouteParams) : FlightRouterState × RouteParams :=
  let segs := rp.segments.getD []
  let built := getParallelRoutesShift segs
  (.node (some (.static rp.pathname)) [("children", built.1)], rp)

mutual
/-- Read a state from root to leaf along its "children" parallel-route slot,
collecting the plain string segments. -/
def readChildren : FlightRouterState → List String
  | .node seg slots =>
    (match seg with
     | some (.static s) => [s]
     | _ => []) ++ readChildrenOf slots
/-- Find the "children" slot among the parallel routes and keep reading. -/
def readChildrenOf : List (String × FlightRouterState) → List String
  | [] => []
  | (name, t) :: rest => if name = "children" then readChildren t else readChildrenOf rest
end

/-- Value assigned to a dynamic-route parameter: a plain string or (for
catch-all segments) an array of strings. -/
inductive ParamValue where
  | str (s : String)
  | strs (l : List String)
deriving DecidableEq, Repr

/-- Params object, as an insertion-ordered association list. -/
abbrev Params := List (String × ParamValue)

/-- JS object assignment `params[k] = v`: overwrite the value in place when
the key exists, append otherwise. -/
def setParam (ps : Params) (k : String) (v : ParamValue) : Params :=
  if ps.any (fun p => p.1 == k) then ps.map (fun p => if p.1 == k then (k, v) else p)
  else ps ++ [(k, v)]

/-- Value the code reads off a segment (line 30): `segment[1]` when the
segment is an array, the segment itself otherwise; `none` is `undefined`. -/
def segmentValue : Option Segment → Option String
  | none => none
  | some (.static s) => some s
  | some (.dynamic _ v _) => some v

/-- JS `s.startsWith(pre)`, on the character sequences of the strings. -/
def jsStartsWith (s pre : String) : Bool :=
  pre.data.isPrefixOf s.data

/-- JS `s.split('/')`, on the character sequence of the string: split at every
`'/'`, dropping the separators and keeping empty pieces (`''.split('/')` is
`['']`, `'a//b'.split('/')` is `['a', '', 'b']`). -/
def jsSplitOnSlash (s : String) : List String :=
  (s.data.splitOnP (· == '/')).map fun cs => String.mk cs

/-- Skip test of line 31: `!segmentValue || segmentValue.startsWith(PAGE_SEGMENT_KEY)`
— the value is missing, empty (falsy), or starts with `PAGE_SEGMENT_KEY`. -/
def skipSegment (seg : Option Segment) : Bool :=
  match segmentValue seg with
  | none => true
  | some v => v == "" || jsStartsWith v PAGE_SEGMENT_KEY

/-- Parameter contributed by one segment (lines 34-40): catch-all / optional
catch-all segments (`type` `'c'` or `'oc'`) store the value split on `'/'`,
other dynamic segments store the value unchanged, plain segments nothing. -/
def segmentParam (seg : Option Segment) (ps : Params) : Params :=
  match seg with
  | some (.dynamic n v ty) =>
    if ty == "c" || ty == "oc" then setParam ps n (.strs (jsSplitOnSlash v))
    else setParam ps n (.str v)
  | _ => ps

mutual
/-- Embedding of `getSelectedParams` (lines 24-46): for each parallel route,
skip it entirely (`continue`, no recursion) when its first segment fails the
truthiness/PAGE test, otherwise record its parameter and recurse into it. -/
def getSelectedParams : FlightRouterState → Params → Params
  | .node _ slots, params => getSelectedParamsSlots slots params
/-- Loop of `getSelectedParams` over `Object.values(parallelRoutes)`. -/
def getSelectedParamsSlots : List (String × FlightRouterState) → Params → Params
  | [], params => params
  | (_, sub) :: rest, params =>
    if skipSegment sub.segOf then getSelectedParamsSlots rest params
    else getSelectedParamsSlots rest (getSelectedParams sub (segmentParam sub.segOf params))
end

mutual
/-- Dynamic-route parameters of a tree as the specification words them: every
parallel-route slot is walked recursively; a segment whose value is missing,
empty, or PAGE-keyed contributes no parameter (but its subtree is still
walked); other segments contribute per `segmentParam`. -/
def specSelectedParams : FlightRouterState → Params → Params
  | .node _ slots, params => specSelectedParamsSlots slots params
/-- Loop of `specSelectedParams` over the slots. -/
def specSelectedParamsSlots : List (String × FlightRouterState) → Params → Params
  | [], params => params
  | (_, sub) :: rest, params =>
    specSelectedParamsSlots rest
      (specSelectedParams sub
        (if skipSegment sub.segOf then params else segmentParam sub.segOf params))
end

mutual
/-- Every slot whose first segment fails the truthiness/PAGE test carries no
nested parallel routes (so pruning it loses nothing). -/
def prunedSlotsAreLeaves : FlightRouterState → Bool
  | .node _ slots => prunedSlotsAreLeavesList slots
/-- Loop of `prunedSlotsAreLeaves` over the slots. -/
def prunedSlotsAreLeavesList : List (String × FlightRouterState) → Bool
  | [] => true
  | (_, sub) :: rest =>
    (!skipSegment sub.segOf || sub.routesOf.isEmpty) && prunedSlotsAreLeaves sub
      && prunedSlotsAreLeavesList rest
end

/-- Tree with a PAGE-keyed slot that itself has a dynamic child: built from
the `FlightRouterState` value
`["", { children: ["__PAGE__", { children: [["id", "5", "d"], {}] }] }]`. -/
def pageWithDynamicChild : FlightRouterState :=
  .node none
    [("children", .node (some (.static PAGE_SEGMENT_KEY))
      [("children", .node (some (.dynamic "id" "5" "d")) [])])]

/-- Tree with one catch-all slot, built from the `FlightRouterState` value
`["", { children: [["slug", "a/b", "c"], {}] }]`. -/
def catchAllTree : FlightRouterState :=
  .node none [("children", .node (some (.dynamic "slug" "a/b" "c")) [])]

/-- JS `s.toUpperCase()`, on the character sequence of the string (the
strings compared against here are plain ASCII). -/
def jsToUpperCase (s : String) : String :=
  String.mk (s.data.map Char.toUpper)

/-- Embedding of `optionalEnvToBoolean` (common-preset.ts lines 150-164):
`undefined` stays `undefined`; a string uppercasing to `"FALSE"` gives
`false`; a string uppercasing to `"TRUE"` gives `true`; every remaining
input is a string, so the `typeof input === 'string'` branch returns `true`
and the trailing `return undefined` is unreachable. -/
def optionalEnvToBoolean : Option String → Option Bool
  | none => none
  | some input =>
    if jsToUpperCase input = "FALSE" then some false
    else if jsToUpperCase input = "TRUE" then some true
    else some true

/-- Embedding of the `staticDirs` preset (lines 45-48):
`async (values = []) => [...defaultStaticDirs, ...values]`. The value of
`defaultStaticDirs` (imported from `../utils/constants`, not part of this
excerpt) is abstracted as a parameter, as is the entry type. -/
def staticDirs {α : Type} (defaultStaticDirs : List α) (values : Option (List α)) : List α :=
  defaultStaticDirs ++ values.getD []

/-- Fields of `CoreConfig` touched by the `core` preset, plus stand-ins for
the remaining fields it must leave alone. -/
structure CoreConfig where
  disableTelemetry : Option Bool
  enableCrashReports : Option Bool
  disableWhatsNewNotifications : Option Bool
  otherFields : List (String × String)
deriving DecidableEq, Repr

/-- CLI/global options read by the `core` preset. -/
structure CoreCLIOptions where
  disableTelemetry : Option Bool
  test : Option Bool
  enableCrashReports : Option Bool
deriving DecidableEq, Repr

/-- JS `a || b` on an optional boolean `a`: `a` is kept only when it is
`true`; `false` and `undefined` are falsy and fall through to `b`. -/
def jsOr (a b : Option Bool) : Option Bool :=
  if a = some true then some true else b

/-- Embedding of the `core` preset (lines 184-189): spread the existing
config, then overwrite `disableTelemetry` with
`options.disableTelemetry === true || options.test === true` and
`enableCrashReports` with
`options.enableCrashReports || optionalEnvToBoolean(process.env.STORYBOOK_ENABLE_CRASH_REPORTS)`
(the environment variable is the last parameter). -/
def core (existing : CoreConfig) (options : CoreCLIOptions)
    (envEnableCrashReports : Option String) : CoreConfig :=
  { existing with
    disableTelemetry :=
      some ((options.disableTelemetry == some true) || (options.test == some true))
    enableCrashReports :=
      jsOr options.enableCrashReports (optionalEnvToBoolean envEnableCrashReports) }

/-- Result of `parseStaticDir` for one configured static dir: the resolved
path on disk and the endpoint it is served under. -/
structure StaticDirEntry where
  staticPath : String
  targetEndpoint : String
deriving DecidableEq, Repr

/-- Node `join(staticPath, url)`. -/
def joinPath (dir file : String) : String := dir ++ "/" ++ file

/-- Per-dir collection step of the `favicon` preset (lines 76-93): from a dir
whose target endpoint is `/`, an existing `favicon.svg` first, then an
existing `favicon.ico`; `ex` is the `pathExists` oracle. -/
def faviconCandidates (ex : String → Bool) (d : StaticDirEntry) : List String :=
  (if d.targetEndpoint = "/" && ex (joinPath d.staticPath "favicon.svg")
   then [joinPath d.staticPath "favicon.svg"] else []) ++
  (if d.targetEndpoint = "/" && ex (joinPath d.staticPath "favicon.ico")
   then [joinPath d.staticPath "favicon.ico"] else [])

/-- Static-dir lookup of the `favicon` preset (lines 57-109), reached when no
truthy user value was supplied: map `faviconCandidates` over the dirs,
flatten with `reduce/concat`, warn (second component) when more than one
favicon was found, and return `flatlist[0] || defaultFavicon`. -/
def faviconFromStatics (defaultFavicon : String)
    (staticDirsValue : Option (List StaticDirEntry)) (ex : String → Bool) : String × Bool :=
  match staticDirsValue with
  | none => (defaultFavicon, false)
  | some statics =>
    if statics.length > 0 then
      let flatlist := (statics.map (faviconCandidates ex)).foldl (· ++ ·) []
      (match flatlist with
       | [] => defaultFavicon
       | p :: _ => if p = "" then defaultFavicon else p,
       decide (flatlist.length > 1))
    else (defaultFavicon, false)

/-- Embedding of the `favicon` preset (lines 50-110): `if (value) return value`
keeps a truthy (non-empty) previous value; otherwise the static dirs decide.
The boolean output records whether the multiple-favicon warning was logged. -/
def favicon (defaultFavicon : String) (value : Option String)
    (staticDirsValue : Option (List StaticDirEntry)) (ex : String → Bool) : String × Bool :=
  match value with
  | some v =>
    if v = "" then faviconFromStatics defaultFavicon staticDirsValue ex else (v, false)
  | none => faviconFromStatics defaultFavicon staticDirsValue ex

/-- Collection described by the favicon claim: from each static dir whose
target endpoint is `/`, an existing `favicon.svg` (first) then an existing
`favicon.ico`, in dir order. -/
def specFavicons (statics : List StaticDirEntry) (ex : String → Bool) : List String :=
  (statics.map (faviconCandidates ex)).flatten

/-- Body of a successful response of the whats-new endpoint. -/
structure WhatsNewResponse where
  title : String
  url : String
  blogUrl : Option String
  publishedAt : String
  excerpt : String
deriving DecidableEq, Repr

/-- Cache entry stored under the `whats-new-cache` key. -/
structure WhatsNewCache where
  lastReadPost : Option String
  lastDismissedPost : Option String
deriving DecidableEq, Repr

/-- Outcome of `fetch(WHATS_NEW_URL)` followed by the `response.ok` test and
JSON parse: the whole step throws, the response is not ok (which the handler
turns into a throw), or a post is obtained. -/
inductive FetchOutcome where
  | throws
  | notOk
  | ok (post : WhatsNewResponse)
deriving DecidableEq, Repr

/-- Outcome of an awaited step that can throw. -/
inductive Outcome (α : Type) where
  | throws
  | ok (a : α)
deriving DecidableEq, Repr

/-- Whether an outcome threw. -/
def Outcome.isThrows {α : Type} : Outcome α → Bool
  | .throws => true
  | .ok _ => false

/-- Environment of one run of the `REQUEST_WHATS_NEW_DATA` handler: what the
fetch produced, what `findConfigFile('main', configDir)` returned, what
reading the main config gave for `core.disableWhatsNewNotifications`, and
what `options.cache.get(WHATS_NEW_CACHE)` returned. -/
structure WhatsNewEnv where
  fetch : FetchOutcome
  configFile : Option String
  readMain : Outcome (Option Bool)
  cacheGet : Outcome (Option WhatsNewCache)
deriving DecidableEq, Repr

/-- Data emitted with `RESULT_WHATS_NEW_DATA`. -/
inductive WhatsNewData where
  | error
  | success (post : WhatsNewResponse) (postIsRead showNotification : Bool)
      (disableWhatsNewNotifications : Option Bool)
deriving DecidableEq, Repr

/-- Embedding of the `REQUEST_WHATS_NEW_DATA` handler (lines 273-305): the
whole body is one `try`; any throw lands in the `catch`, which logs at
verbose level (second component `true`) and emits `{ status: 'ERROR' }`. On
success the post is extended with the read/notification flags computed
against the cache (`?? {}` turns a missing cache into the empty one). -/
def handleRequestWhatsNewData (env : WhatsNewEnv) : WhatsNewData × Bool :=
  match env.fetch with
  | .throws => (.error, true)
  | .notOk => (.error, true)
  | .ok post =>
    match env.configFile with
    | none => (.error, true)
    | some _ =>
      match env.readMain with
      | .throws => (.error, true)
      | .ok dwn =>
        match env.cacheGet with
        | .throws => (.error, true)
        | .ok c =>
          let cache := c.getD ⟨none, none⟩
          (.success post
            (cache.lastReadPost == some post.url)
            (cache.lastDismissedPost != some post.url && cache.lastReadPost != some post.url)
            dwn, false)

/-- Failure condition the whats-new claim enumerates: the fetch throws or the
response is not ok, no main config file is found, or reading the config or
the cache throws. -/
def whatsNewFails (env : WhatsNewEnv) : Bool :=
  match env.fetch with
  | .throws => true
  | .notOk => true
  | .ok _ => env.configFile.isNone || env.readMain.isThrows || env.cacheGet.isThrows

/-- Sample post used to instantiate the whats-new theorem. -/
def samplePost : WhatsNewResponse :=
  { title := "t", url := "https://storybook.js.org/p", blogUrl := none
    publishedAt := "2024-01-01", excerpt := "e" }

/-- External actions the server-channel handlers can perform. -/
inductive ServerAction where
  | writeMainConfig (path : String)
  | telemetryEvent
  | telemetryErrorReport
deriving DecidableEq, Repr

/-- Whether an action relays telemetry (`telemetry` or `sendTelemetryError`). -/
def ServerAction.isTelemetry : ServerAction → Bool
  | .writeMainConfig _ => false
  | .telemetryEvent => true
  | .telemetryErrorReport => true

/-- Environment of one run of the `TOGGLE_WHATS_NEW_NOTIFICATIONS` handler:
what `findConfigFile` returned, whether reading/updating/writing the main
config succeeded, and whether the `telemetry` call itself would succeed. -/
structure ToggleEnv where
  mainPath : Option String
  writeSucceeds : Bool
  telemetrySucceeds : Bool
deriving DecidableEq, Repr

/-- Embedding of the `TOGGLE_WHATS_NEW_NOTIFICATIONS` handler (lines 307-331)
as the list of external actions it performs: a missing main path makes the
`invariant` throw and a failing write throws, both landing in the `catch`,
which calls `sendTelemetryError` only when telemetry is enabled
(`coreOptions.disableTelemetry !== true`); on a successful write `telemetry`
is called only when telemetry is enabled, and its own throw is caught by the
same `catch`. -/
def toggleWhatsNewHandler (disableTelemetry : Option Bool) (env : ToggleEnv) :
    List ServerAction :=
  let isTelemetryEnabled := disableTelemetry ≠ some true
  match env.mainPath with
  | none => if isTelemetryEnabled then [.telemetryErrorReport] else []
  | some path =>
    if env.writeSucceeds then
      if isTelemetryEnabled then
        if env.telemetrySucceeds then [.writeMainConfig path, .telemetryEvent]
        else [.writeMainConfig path, .telemetryEvent, .telemetryErrorReport]
      else [.writeMainConfig path]
    else if isTelemetryEnabled then [.telemetryErrorReport] else []

/-- Embedding of the `TELEMETRY_ERROR` handler (lines 333-343): relay the
error with `sendTelemetryError` only when telemetry is enabled. -/
def telemetryErrorHandler (disableTelemetry : Option Bool) : List ServerAction :=
  if disableTelemetry ≠ some true then [.telemetryErrorReport] else []

/-! Helper lemmas. -/

/-- Both embeddings of `getParallelRoutes` build the same tree. -/
theorem getParallelRoutesShift_fst :
    ∀ segs : List String, (getParallelRoutesShift segs).1 = getParallelRoutes segs
  | [] => rfl
  | s :: rest => by
    rw [getParallelRoutesShift, getParallelRoutes]
    by_cases h : s = ""
    · simp [h]
    · simp [h, getParallelRoutesShift_fst rest]

/-- On a non-empty list, the shifting version of `getParallelRoutes` consumes
at least one element of its argument array. -/
theorem getParallelRoutesShift_consumes :
    ∀ segs : List String, segs ≠ [] →
      ((getParallelRoutesShift segs).2).length < segs.length
  | [], h => absurd rfl h
  | s :: rest, _ => by
    rw [getParallelRoutesShift]
    by_cases h : s = ""
    · simp [h]
    · simp only [h, if_false, List.length_cons]
      rcases rest with _ | ⟨r, rest⟩
      · simp [getParallelRoutesShift]
      · exact Nat.lt_trans (getParallelRoutesShift_consumes (r :: rest) (by simp)) (Nat.lt_succ_self _)

/-- Reading the `children` chain of `getParallelRoutes` gives back every
non-empty-free input list. -/
theorem readChildren_getParallelRoutes :
    ∀ segs : List String, (∀ s ∈ segs, s ≠ "") →
      readChildren (getParallelRoutes segs) = segs
  | [], _ => by
    simp [getParallelRoutes, readChildren, readChildrenOf]
  | s :: rest, h => by
    have hs : s ≠ "" := h s (List.mem_cons_self s rest)
    rw [getParallelRoutes, if_neg hs, readChildren, readChildrenOf, if_pos rfl]
    simp [readChildren_getParallelRoutes rest (fun x hx => h x (List.mem_cons_of_mem s hx))]

/-! Claim theorems. -/

/-- C1 (amended: only for lists of non-empty segments; an empty-string
segment is falsy in JS, stops `getParallelRoutes`, and drops itself and all
later segments): for every list of non-empty path segments, reading the tree
built by `getParallelRoutes` from root to leaf along the `children`
parallel-route slot yields exactly the input segments in order, and
`AppRouterProvider` installs exactly that tree as the `children` slot under
`pathname`. -/
theorem c1_getParallelRoutes_mirrors_segments (pathname : String)
    (query : List (String × String)) (segs : List String) (h : ∀ s ∈ segs, s ≠ "") :
    readChildren (getParallelRoutes segs) = segs ∧
    (appRouterProviderTree ⟨pathname, query, some segs⟩).1 =
      .node (some (.static pathname)) [("children", getParallelRoutes segs)] := by
  constructor
  · exact readChildren_getParallelRoutes segs h
  · show (FlightRouterState.node (some (.static pathname))
      [("children", (getParallelRoutesShift segs).1)]) = _
    rw [getParallelRoutesShift_fst]

/-- C1 witness: the theorem applied to the concrete segment list
`["dashboard", "settings"]`. -/
theorem c1_witness :
    readChildren (getParallelRoutes ["dashboard", "settings"]) = ["dashboard", "settings"] ∧
    (appRouterProviderTree ⟨"/d/s", [], some ["dashboard", "settings"]⟩).1 =
      .node (some (.static "/d/s"))
        [("children", getParallelRoutes ["dashboard", "settings"])] :=
  c1_getParallelRoutes_mirrors_segments "/d/s" [] ["dashboard", "settings"] (by decide)

/-- C1 counterexample: on a segment list containing the empty string the
claim as stated fails — `["a", "", "b"]` reads back as `["a"]`, so `""` and
`"b"` are dropped. -/
theorem c1_counterexample :
    readChildren (getParallelRoutes ["a", "", "b"]) ≠ ["a", "", "b"] := by
  simp [getParallelRoutes, readChildren, readChildrenOf]

/-- C8: `getParallelRoutes` is total (it is a Lean function), each call
consumes exactly one segment from the front of the list — the unfolding
equation below — and consequently the depth of the produced `children` chain
is bounded by the length of the input list. -/
theorem c8_getParallelRoutes_terminates (segs : List String) :
    (readChildren (getParallelRoutes segs)).length ≤ segs.length ∧
    ∀ (s : String) (rest : List String),
      getParallelRoutes (s :: rest) =
        if s = "" then .node none []
        else .node (some (.static s)) [("children", getParallelRoutes rest)] := by
  constructor
  · induction segs with
    | nil =>
      simp [getParallelRoutes, readChildren, readChildrenOf]
    | cons s rest ih =>
      rw [getParallelRoutes]
      by_cases h : s = ""
      · rw [if_pos h]
        simp [readChildren, readChildrenOf]
      · rw [if_neg h, readChildren, readChildrenOf, if_pos rfl]
        simpa using Nat.succ_le_succ ih
  · intro s rest
    rw [getParallelRoutes]

/-- C9: `AppRouterProvider` does not mutate its input — the `routeParams` it
was given come back unchanged because `getParallelRoutes` receives a fresh
copy (`[...segments]`), the copy builds the same tree as the pure function,
and the copy is needed: on any non-empty segment list the shifting version
really consumes its argument array. -/
theorem c9_appRouterProvider_no_mutation (rp : RouteParams) :
    (appRouterProviderTree rp).2 = rp ∧
    (getParallelRoutesShift (rp.segments.getD [])).1 =
      getParallelRoutes (rp.segments.getD []) ∧
    (rp.segments.getD [] ≠ [] →
      ((getParallelRoutesShift (rp.segments.getD [])).2).length <
        (rp.segments.getD []).length) :=
  ⟨rfl, getParallelRoutesShift_fst _, getParallelRoutesShift_consumes _⟩

/-- C9 witness: the theorem applied to concrete route params with segment
list `["a", "b"]`. -/
theorem c9_witness :
    (appRouterProviderTree ⟨"/a/b", [], some ["a", "b"]⟩).2 =
      (⟨"/a/b", [], some ["a", "b"]⟩ : RouteParams) ∧
    ((getParallelRoutesShift ["a", "b"]).2).length < (["a", "b"] : List String).length :=
  ⟨(c9_appRouterProvider_no_mutation ⟨"/a/b", [], some ["a", "b"]⟩).1,
   (c9_appRouterProvider_no_mutation ⟨"/a/b", [], some ["a", "b"]⟩).2.2 (by decide)⟩

/-- Specification-side collector does nothing on a state without parallel
routes. -/
theorem specSelectedParams_of_no_routes :
    ∀ (t : FlightRouterState), t.routesOf.isEmpty = true →
      ∀ ps : Params, specSelectedParams t ps = ps
  | .node seg slots, h, ps => by
    have hnil : slots = [] := by
      simpa [FlightRouterState.routesOf] using h
    subst hnil
    rw [specSelectedParams, specSelectedParamsSlots]

mutual
/-- On trees whose skipped slots are leaves, the code's pruning walk and the
specification's full walk agree. -/
theorem getSelectedParams_eq_spec :
    ∀ (t : FlightRouterState), prunedSlotsAreLeaves t = true →
      ∀ ps : Params, getSelectedParams t ps = specSelectedParams t ps
  | .node seg slots, h, ps => by
    rw [prunedSlotsAreLeaves] at h
    rw [getSelectedParams, specSelectedParams]
    exact getSelectedParamsSlots_eq_spec slots h ps
/-- Slot-list version of `getSelectedParams_eq_spec`. -/
theorem getSelectedParamsSlots_eq_spec :
    ∀ (l : List (String × FlightRouterState)), prunedSlotsAreLeavesList l = true →
      ∀ ps : Params, getSelectedParamsSlots l ps = specSelectedParamsSlots l ps
  | [], _, _ => by rw [getSelectedParamsSlots, specSelectedParamsSlots]
  | (name, sub) :: rest, h, ps => by
    rw [prunedSlotsAreLeavesList, Bool.and_eq_true, Bool.and_eq_true] at h
    obtain ⟨⟨h1, h2⟩, h3⟩ := h
    rw [getSelectedParamsSlots, specSelectedParamsSlots]
    cases hs : skipSegment sub.segOf with
    | true =>
      rw [hs] at h1
      simp only [Bool.not_true, Bool.false_or] at h1
      rw [if_pos rfl, if_pos rfl, specSelectedParams_of_no_routes sub h1]
      exact getSelectedParamsSlots_eq_spec rest h3 ps
    | false =>
      rw [if_neg (by simp), if_neg (by simp),
        getSelectedParams_eq_spec sub h2]
      exact getSelectedParamsSlots_eq_spec rest h3 _
end

/-- C2 (amended: the code does not walk a slot whose first segment has a
missing, empty, or PAGE-prefixed value — it skips the slot's whole subtree —
so the claim holds on trees in which every such slot carries no nested
parallel routes): on those trees `getSelectedParams` returns exactly the
dynamic-route parameters described by the claim, catch-all and optional
catch-all values split on `/`, other dynamic values unchanged, non-dynamic,
empty-valued and PAGE-keyed segments contributing nothing. -/
theorem c2_getSelectedParams_collects_params (t : FlightRouterState)
    (h : prunedSlotsAreLeaves t = true) :
    getSelectedParams t [] = specSelectedParams t [] :=
  getSelectedParams_eq_spec t h []

/-- C2 witness: the theorem applied to the concrete catch-all tree. -/
theorem c2_witness :
    prunedSlotsAreLeaves catchAllTree = true ∧
    getSelectedParams catchAllTree [] = specSelectedParams catchAllTree [] :=
  ⟨by simp [catchAllTree, prunedSlotsAreLeaves, prunedSlotsAreLeavesList,
      FlightRouterState.segOf, FlightRouterState.routesOf, skipSegment, segmentValue,
      jsStartsWith, PAGE_SEGMENT_KEY],
   c2_getSelectedParams_collects_params catchAllTree
     (by simp [catchAllTree, prunedSlotsAreLeaves, prunedSlotsAreLeavesList,
        FlightRouterState.segOf, FlightRouterState.routesOf, skipSegment, segmentValue,
        jsStartsWith, PAGE_SEGMENT_KEY])⟩

/-- C2 counterexample: on a PAGE-keyed slot that itself has a dynamic child,
the code skips the whole subtree and returns no parameters, while the claim's
reading (every slot walked) collects `id ↦ "5"`. -/
theorem c2_counterexample :
    getSelectedParams pageWithDynamicChild [] ≠
      specSelectedParams pageWithDynamicChild [] := by
  simp [pageWithDynamicChild, getSelectedParams, getSelectedParamsSlots,
    specSelectedParams, specSelectedParamsSlots, skipSegment, segmentValue,
    segmentParam, setParam, jsStartsWith, PAGE_SEGMENT_KEY, FlightRouterState.segOf]

/-- C10: `optionalEnvToBoolean` is total; it returns `undefined` exactly on
the `undefined` input, `false` exactly on defined inputs uppercasing to
`"FALSE"`, and `true` on every other defined string — including `"0"`,
`"no"`, and the empty string. -/
theorem c10_optionalEnvToBoolean_total :
    optionalEnvToBoolean none = none ∧
    (∀ s : String, (optionalEnvToBoolean (some s)).isSome = true) ∧
    (∀ s : String, optionalEnvToBoolean (some s) = some (!(jsToUpperCase s == "FALSE"))) ∧
    optionalEnvToBoolean (some "0") = some true ∧
    optionalEnvToBoolean (some "no") = some true ∧
    optionalEnvToBoolean (some "") = some true := by
  have key : ∀ s : String,
      optionalEnvToBoolean (some s) = some (!(jsToUpperCase s == "FALSE")) := by
    intro s
    rw [optionalEnvToBoolean]
    by_cases h : jsToUpperCase s = "FALSE"
    · simp [h]
    · by_cases h2 : jsToUpperCase s = "TRUE" <;> simp [h, h2]
  refine ⟨rfl, fun s => by rw [key s]; rfl, key, ?_, ?_, ?_⟩ <;> decide

/-- C6: the `staticDirs` preset returns `defaultStaticDirs` followed by the
input values in their original order, and exactly `defaultStaticDirs` when no
previous value is given. -/
theorem c6_staticDirs_prepends_defaults {α : Type} (defaults : List α)
    (values : List α) :
    staticDirs defaults (some values) = defaults ++ values ∧
    staticDirs defaults none = defaults := by
  constructor
  · rfl
  · simp [staticDirs]

/-- C7 (amended: `enableCrashReports` in the result is `options.enableCrashReports`
only when that is `true`; an explicit `false` is falsy in JS, so `||` falls
through to the environment variable just as for `undefined`): the `core`
preset leaves every field other than `disableTelemetry` and
`enableCrashReports` as in `existing`; `disableTelemetry` becomes `true` iff
`options.disableTelemetry === true` or `options.test === true`; and
`enableCrashReports` is `true` when `options.enableCrashReports` is `true`,
otherwise `optionalEnvToBoolean` of `STORYBOOK_ENABLE_CRASH_REPORTS`. -/
theorem c7_core_merges (existing : CoreConfig) (options : CoreCLIOptions)
    (env : Option String) :
    (core existing options env).disableWhatsNewNotifications =
      existing.disableWhatsNewNotifications ∧
    (core existing options env).otherFields = existing.otherFields ∧
    (core existing options env).disableTelemetry =
      some (decide (options.disableTelemetry = some true ∨ options.test = some true)) ∧
    (core existing options env).enableCrashReports =
      (if options.enableCrashReports = some true then some true
       else optionalEnvToBoolean env) := by
  refine ⟨rfl, rfl, ?_, ?_⟩
  · show some _ = some _
    congr 1
    rcases options.disableTelemetry with _ | b <;> rcases options.test with _ | c <;>
      first
        | rfl
        | (cases b <;> first | rfl | (cases c <;> rfl))
        | (cases c <;> rfl)
  · show jsOr _ _ = _
    rw [jsOr]

/-- C7 counterexample: with `options.enableCrashReports` explicitly set to
`false` and the environment variable set to `"yes"`, the preset reports
`enableCrashReports: true` instead of keeping the set value `false`. -/
theorem c7_counterexample :
    (core ⟨none, none, none, []⟩ ⟨none, none, some false⟩ (some "yes")).enableCrashReports
      ≠ some false := by
  decide

/-- C5: when the applied core config has `disableTelemetry === true`, the
server channel relays no telemetry: the `TOGGLE_WHATS_NEW_NOTIFICATIONS`
handler performs no telemetry action whatever the environment (neither
`telemetry` on success nor `sendTelemetryError` on failure), and the
`TELEMETRY_ERROR` handler performs none at all. -/
theorem c5_telemetry_disabled_not_relayed (env : ToggleEnv) :
    (toggleWhatsNewHandler (some true) env).filter ServerAction.isTelemetry = [] ∧
    (telemetryErrorHandler (some true)).filter ServerAction.isTelemetry = [] := by
  constructor
  · rcases env with ⟨mp, ws, ts⟩
    rcases mp with _ | p
    · simp [toggleWhatsNewHandler]
    · cases ws <;> cases ts <;>
        simp [toggleWhatsNewHandler, ServerAction.isTelemetry]
  · simp [telemetryErrorHandler]

/-! Helper lemmas relating JS `==`/`!=` on optional strings to `decide`. -/

/-- Option-string `==` is decidable equality. -/
theorem optionBeq_eq_decide (a b : Option String) : (a == b) = decide (a = b) := by
  by_cases h : a = b
  · simp [h]
  · simp [h, beq_eq_false_iff_ne.2 h]

/-- Option-string `!=` is decidable disequality. -/
theorem optionBne_eq_decide (a b : Option String) : (a != b) = decide (a ≠ b) := by
  by_cases h : a = b
  · simp [h, bne]
  · simp [h, bne, beq_eq_false_iff_ne.2 h]

/-- C4: the `REQUEST_WHATS_NEW_DATA` handler never lets an error escape: when
any step fails (fetch throws or response not ok, no main config file, config
read throws, cache read throws) it logs at verbose level and emits exactly
`{ status: 'ERROR' }`; on success it emits the fetched post extended with
status `SUCCESS`, `postIsRead` true iff the post url equals the cached
`lastReadPost`, and `showNotification` true iff the post url differs from
both the cached `lastDismissedPost` and `lastReadPost`. -/
theorem c4_whatsNew_handler_never_throws (env : WhatsNewEnv) :
    (whatsNewFails env = true → handleRequestWhatsNewData env = (.error, true)) ∧
    (∀ (post : WhatsNewResponse) (dwn : Option Bool) (c : Option WhatsNewCache),
      env.fetch = .ok post → env.configFile.isSome = true →
      env.readMain = .ok dwn → env.cacheGet = .ok c →
      handleRequestWhatsNewData env =
        (.success post
          (decide ((c.getD ⟨none, none⟩).lastReadPost = some post.url))
          (decide ((c.getD ⟨none, none⟩).lastDismissedPost ≠ some post.url ∧
                   (c.getD ⟨none, none⟩).lastReadPost ≠ some post.url))
          dwn, false)) := by
  rcases env with ⟨f, cf, rm, cg⟩
  constructor
  · intro h
    cases f with
    | throws => rfl
    | notOk => rfl
    | ok post =>
      cases cf with
      | none => rfl
      | some p =>
        cases rm with
        | throws => rfl
        | ok dwn =>
          cases cg with
          | throws => rfl
          | ok c => simp [whatsNewFails, Outcome.isThrows] at h
  · intro post dwn c hf hcf hrm hcg
    subst hf
    subst hrm
    subst hcg
    obtain ⟨p, hp⟩ := Option.isSome_iff_exists.mp hcf
    subst hp
    show (WhatsNewData.success post
      ((c.getD ⟨none, none⟩).lastReadPost == some post.url)
      (((c.getD ⟨none, none⟩).lastDismissedPost != some post.url) &&
        ((c.getD ⟨none, none⟩).lastReadPost != some post.url))
      dwn, false) = _
    simp [optionBeq_eq_decide, optionBne_eq_decide, Bool.decide_and]

/-- C4 witness: the theorem applied once to a failing environment (the fetch
throws) and once to a fully successful one with an empty cache. -/
theorem c4_witness :
    handleRequestWhatsNewData ⟨.throws, none, .ok none, .ok none⟩ = (.error, true) ∧
    handleRequestWhatsNewData
        ⟨.ok samplePost, some "main.js", .ok (some false), .ok none⟩ =
      (.success samplePost
        (decide (((none : Option WhatsNewCache).getD ⟨none, none⟩).lastReadPost =
          some samplePost.url))
        (decide (((none : Option WhatsNewCache).getD ⟨none, none⟩).lastDismissedPost ≠
            some samplePost.url ∧
          ((none : Option WhatsNewCache).getD ⟨none, none⟩).lastReadPost ≠
            some samplePost.url))
        (some false), false) :=
  ⟨(c4_whatsNew_handler_never_throws ⟨.throws, none, .ok none, .ok none⟩).1 rfl,
   (c4_whatsNew_handler_never_throws
      ⟨.ok samplePost, some "main.js", .ok (some false), .ok none⟩).2
     samplePost (some false) none rfl rfl rfl rfl⟩

/-- Folding list-append from the empty accumulator is flattening. -/
theorem foldl_append_eq_flatten {α : Type} :
    ∀ (ls : List (List α)) (init : List α), ls.foldl (· ++ ·) init = init ++ ls.flatten
  | [], init => by simp
  | l :: ls, init => by
    rw [List.foldl_cons, foldl_append_eq_flatten ls (init ++ l)]
    simp

/-- A joined path is never the empty string. -/
theorem joinPath_ne_empty (dir file : String) : joinPath dir file ≠ "" := by
  intro h
  have hl := congrArg String.length h
  simp [joinPath, String.length_append] at hl
  exact absurd hl.1.2 (by decide)

/-- Every collected favicon path is a joined (hence non-empty) path. -/
theorem specFavicons_ne_empty (statics : List StaticDirEntry) (ex : String → Bool) :
    ∀ p ∈ specFavicons statics ex, p ≠ "" := by
  intro p hp
  rw [specFavicons] at hp
  rw [List.mem_flatten] at hp
  obtain ⟨l, hl, hpl⟩ := hp
  rw [List.mem_map] at hl
  obtain ⟨d, _, hdl⟩ := hl
  subst hdl
  rw [faviconCandidates, List.mem_append] at hpl
  rcases hpl with h | h <;> [skip; skip] <;>
    · rcases Bool.eq_false_or_eq_true _ with hc | hc
      all_goals
        first
          | (rw [if_pos hc] at h
             rw [List.mem_singleton] at h
             subst h
             exact joinPath_ne_empty _ _)
          | (rw [if_neg (by simp [hc])] at h
             cases h)

/-- C3 (amended: an empty-string previous value is falsy in JS, so
`if (value) return value` does not keep it and the static dirs are consulted
instead; only a non-empty previous value is returned unchanged): a non-empty
previous favicon value is returned as-is without warning; with no static dirs
(or an empty list of them) the bundled default is returned; otherwise the
favicons collected from the static dirs — an existing `favicon.svg` then an
existing `favicon.ico` from each dir whose target endpoint is `/` — decide:
the first collected path, or the default when none was collected, warning
exactly when more than one was collected. -/
theorem c3_favicon_resolution (defaultFavicon v : String)
    (sdv : Option (List StaticDirEntry)) (ex : String → Bool)
    (statics : List StaticDirEntry) (hv : v ≠ "") (hs : statics ≠ []) :
    favicon defaultFavicon (some v) sdv ex = (v, false) ∧
    favicon defaultFavicon none none ex = (defaultFavicon, false) ∧
    favicon defaultFavicon none (some []) ex = (defaultFavicon, false) ∧
    favicon defaultFavicon none (some statics) ex =
      ((specFavicons statics ex).headD defaultFavicon,
        decide ((specFavicons statics ex).length > 1)) := by
  refine ⟨by simp [favicon, hv], rfl, rfl, ?_⟩
  rw [favicon, faviconFromStatics, if_pos (List.length_pos.2 hs)]
  rw [show (statics.map (faviconCandidates ex)).foldl (· ++ ·) [] =
      specFavicons statics ex from by
    rw [foldl_append_eq_flatten, List.nil_append, specFavicons]]
  cases h : specFavicons statics ex with
  | nil => simp
  | cons p rest =>
    have hp : p ≠ "" := specFavicons_ne_empty statics ex p (h ▸ List.mem_cons_self p rest)
    simp [hp]

/-- C3 witness: the theorem applied to a concrete non-empty previous value, a
concrete static dir list, and a `pathExists` oracle that finds nothing. -/
theorem c3_witness :
    favicon "bundled.svg" (some "custom.ico") (some []) (fun _ => false) =
      ("custom.ico", false) ∧
    favicon "bundled.svg" none none (fun _ => false) = ("bundled.svg", false) ∧
    favicon "bundled.svg" none (some []) (fun _ => false) = ("bundled.svg", false) ∧
    favicon "bundled.svg" none (some [⟨"public", "/"⟩]) (fun _ => false) =
      ((specFavicons [⟨"public", "/"⟩] (fun _ => false)).headD "bundled.svg",
        decide ((specFavicons [⟨"public", "/"⟩] (fun _ => false)).length > 1)) :=
  c3_favicon_resolution "bundled.svg" "custom.ico" (some []) (fun _ => false)
    [⟨"public", "/"⟩] (by decide) (by decide)

/-- C3 counterexample: an empty-string previous value is a given value, yet
the preset does not return it unchanged — it consults the static dirs and
returns the favicon found there. -/
theorem c3_counterexample :
    (favicon "bundled.svg" (some "") (some [⟨"public", "/"⟩]) (fun _ => true)).1 ≠ "" := by
  decide
